import Mathlib

/-!
# Verification of the DevRev MCP server client against its specification

Shallow embedding of `src/devrev_mcp/errors.py`, `src/devrev_mcp/client.py`
and `src/devrev_mcp/auth.py`.  Python dictionaries are modelled as
association lists over a type `PyVal` of JSON-like Python values; network
I/O is modelled by an explicit script of per-attempt outcomes; raising is
modelled by explicit outcome constructors.
-/

/-- A Python value as produced by `json.loads` / `response.json()`.
(Floats are not needed by any claim and are omitted; numbers are `int`.) -/
inductive PyVal where
  /-- Python `None`. -/
  | none_ : PyVal
  | bool_ : Bool → PyVal
  | int_ : Int → PyVal
  | str : String → PyVal
  | list : List PyVal → PyVal
  /-- A Python dict with string keys, as an association list. -/
  | dict : List (String × PyVal) → PyVal

mutual

/-- Python `==` on `PyVal` (structural equality, as for JSON values). -/
def PyVal.beq : PyVal → PyVal → Bool
  | .none_, .none_ => true
  | .bool_ a, .bool_ b => a == b
  | .int_ a, .int_ b => a == b
  | .str a, .str b => a == b
  | .list xs, .list ys => PyVal.beqList xs ys
  | .dict xs, .dict ys => PyVal.beqKVList xs ys
  | _, _ => false

/-- Elementwise `PyVal.beq` on lists. -/
def PyVal.beqList : List PyVal → List PyVal → Bool
  | [], [] => true
  | x :: xs, y :: ys => PyVal.beq x y && PyVal.beqList xs ys
  | _, _ => false

/-- Elementwise `PyVal.beq` on key-value lists. -/
def PyVal.beqKVList : List (String × PyVal) → List (String × PyVal) → Bool
  | [], [] => true
  | (k, v) :: xs, (l, w) :: ys => k == l && PyVal.beq v w && PyVal.beqKVList xs ys
  | _, _ => false

end

instance : BEq PyVal := ⟨PyVal.beq⟩

/-- Substring test on character lists (Python `needle in haystack` for
strings). -/
def charListInfix (needle : List Char) : List Char → Bool
  | [] => needle.isEmpty
  | c :: t => needle.isPrefixOf (c :: t) || charListInfix needle t

/-- First binding of `key` in an association list (Python dict lookup). -/
def dictFind (kvs : List (String × PyVal)) (key : String) : Option PyVal :=
  (kvs.find? (fun kv => kv.1 == key)).map (·.2)

/-- Python `d.get(key, default)` on a dict. -/
def dictGetD (kvs : List (String × PyVal)) (key : String) (default : PyVal) : PyVal :=
  (dictFind kvs key).getD default

/-- Python `key in value` for a string `key`.  Membership is defined for
dicts (key lookup), lists (element equality) and strings (substring test);
on any other value Python raises an uncaught `TypeError`, modelled as
`Except.error`. -/
def pyContains (v : PyVal) (key : String) : Except Unit Bool :=
  match v with
  | .dict kvs => .ok ((kvs.find? (fun kv => kv.1 == key)).isSome)
  | .list xs => .ok (xs.contains (.str key))
  | .str s => .ok (charListInfix key.data s.data)
  | _ => .error ()

/-- Python `value[key]` for a string `key`.  Defined only for dicts with the
key present; a dict without the key raises `KeyError`, and any non-dict
value raises `TypeError` — both uncaught, modelled as `Except.error`. -/
def pySubscript (v : PyVal) (key : String) : Except Unit PyVal :=
  match v with
  | .dict kvs =>
    match dictFind kvs key with
    | some w => .ok w
    | none => .error ()
  | _ => .error ()

/-- An HTTP response as seen by the error handler: its status code, its
body text, and the result of `response.json()` (`none` models a JSON
decoding failure, which surfaces as a caught `ValueError`). -/
structure HTTPResponse where
  status_code : Nat
  text : String
  jsonBody : Option PyVal

/-- What a call to `handle_api_error` does: raise `DevRevAPIError(message,
status_code, response_body)`, raise an uncaught Python error (`TypeError` /
`KeyError`), or return a `(message, status_code)` tuple normally. -/
inductive HandleOutcome where
  | raisedAPIError (message : PyVal) (status_code : Nat) (response_body : String)
  | raisedPythonError
  | returned (message : String) (status_code : Nat)

/-- Generic fallback message (errors.py line 70). -/
def genericErrorMessage : String :=
  "An error occurred while communicating with the DevRev API"

/-- Fixed message keyed by well-known status codes, used when the body is
not parseable JSON (errors.py lines 84-92).  The source text of the 403
message uses a contraction; it is spelled out without one here. -/
def statusKeyedMessage (status_code : Nat) : String :=
  if status_code = 401 then "Authentication failed. Please check your API key."
  else if status_code = 403 then "You do not have permission to access this resource."
  else if status_code = 404 then "The requested resource was not found."
  else if status_code = 429 then "Rate limit exceeded. Please try again later."
  else genericErrorMessage

/-- Model of `errors.handle_api_error` (errors.py lines 59-103).  The argument is
`error.response` (`none` when the exception carries no HTTP response; the
`hasattr` test always succeeds on a `RequestException`).  The construction
of `DevRevAPIError.error_details` (a re-parse of the body used only by
logging and `__str__`) is not modelled. -/
def handle_api_error (response : Option HTTPResponse) : HandleOutcome :=
  match response with
  | some r =>
    let status_code := r.status_code
    match r.jsonBody with
    | none =>
      -- response.json() raised; the except arm falls back to fixed messages
      .raisedAPIError (.str (statusKeyedMessage status_code)) status_code r.text
    | some error_data =>
      match pyContains error_data "message" with
      | .error _ => .raisedPythonError
      | .ok true =>
        match pySubscript error_data "message" with
        | .ok m => .raisedAPIError m status_code r.text
        | .error _ => .raisedPythonError
      | .ok false =>
        match pyContains error_data "error" with
        | .error _ => .raisedPythonError
        | .ok true =>
          match pySubscript error_data "error" with
          | .ok m => .raisedAPIError m status_code r.text
          | .error _ => .raisedPythonError
        | .ok false =>
          .raisedAPIError (.str genericErrorMessage) status_code r.text
  | none =>
    -- no HTTP response: the function returns a tuple instead of raising
    .returned "Could not connect to DevRev API. Please check your internet connection." 503

/-! ## client.py: endpoints and the shared request executor -/

/-- client.py line 20. -/
def SEARCH_ENDPOINT : String := "/search.core"
/-- client.py line 21. -/
def WORKS_ENDPOINT : String := "/works.get"
/-- client.py line 22. -/
def WORKS_LIST_ENDPOINT : String := "/works.list"
/-- client.py line 23. -/
def WORKS_CREATE_ENDPOINT : String := "/works.create"
/-- client.py line 24. -/
def WORKS_UPDATE_ENDPOINT : String := "/works.update"
/-- client.py line 25. -/
def PARTS_ENDPOINT : String := "/parts.get"
/-- client.py line 26. -/
def PARTS_LIST_ENDPOINT : String := "/parts.list"
/-- client.py line 27. -/
def DEV_USERS_ENDPOINT : String := "/dev-users.get"

/-- Outcome of one HTTP attempt (`requests.get` / `requests.post` followed
by `raise_for_status()` and `.json()`).  `success data` means a 2xx
response whose body parsed to `data`; `failure r` means some
`requests.exceptions.RequestException` was raised, carrying `e.response = r`
(a non-2xx response carries `some r`; timeouts, connection errors and JSON
decode errors of a 2xx body carry `none`). -/
inductive AttemptResult where
  | success (data : PyVal)
  | failure (response : Option HTTPResponse)

/-- How a call of `_make_request` ends. -/
inductive RequestOutcome where
  /-- A value is returned normally. -/
  | ok (data : PyVal)
  /-- A `DevRevAPIError(message, status, body)` raised by `handle_api_error`. -/
  | apiError (message : PyVal) (status_code : Nat) (response_body : String)
  /-- The final generic raise at client.py line 369. -/
  | genericError
  /-- An uncaught Python error (`TypeError`, `KeyError`, `ValueError`). -/
  | pythonError

/-- True exactly when the outcome raises rather than returns. -/
def RequestOutcome.isRaise : RequestOutcome → Bool
  | .ok _ => false
  | _ => true

/-- Result of running `_make_request`: how many HTTP attempts were
performed, the durations (in seconds) passed to `time.sleep` in order, and
the final outcome. -/
structure RunResult where
  attempts : Nat
  sleeps : List Nat
  outcome : RequestOutcome

/-- Envelope processing of a successful response body (client.py lines
341-355): known endpoints project out one key with an empty default, every
other endpoint returns the body unchanged.  `data.get(...)` on a non-dict
body raises an uncaught `AttributeError`. -/
def processResponse (endpoint : String) (data : PyVal) : RequestOutcome :=
  let envGet (key : String) (default : PyVal) : RequestOutcome :=
    match data with
    | .dict kvs => .ok (dictGetD kvs key default)
    | _ => .pythonError
  if endpoint = SEARCH_ENDPOINT then envGet "results" (.list [])
  else if endpoint = WORKS_LIST_ENDPOINT then envGet "works" (.list [])
  else if endpoint = WORKS_CREATE_ENDPOINT then envGet "work" (.dict [])
  else if endpoint = WORKS_UPDATE_ENDPOINT then envGet "work" (.dict [])
  else if endpoint = PARTS_ENDPOINT then envGet "part" (.dict [])
  else if endpoint = PARTS_LIST_ENDPOINT then envGet "parts" (.list [])
  else .ok data

/-- The `while retries <= self.max_retries` loop of `_make_request`
(client.py lines 328-369).  `script i` is the outcome of the HTTP attempt
made when `retries = i`; `fuel` counts the loop iterations still allowed,
so the loop entry `retries ≤ max_retries` holds exactly when `fuel > 0`
(the loop increments `retries` by one per iteration; callers maintain
`fuel + retries = max_retries + 1`).  When `retries >= max_retries` the
exception is handed to `handle_api_error`; if that call returns (it does
for a responseless exception), control falls through to the shared
`retries += 1; time.sleep(2 ** retries)` code and re-tests the loop
condition, and on loop exit line 369 raises a generic `Exception`. -/
def makeRequestLoop (method endpoint : String) (max_retries : Nat)
    (script : Nat → AttemptResult) : Nat → Nat → Nat → List Nat → RunResult
  | 0, _retries, attempts, sleeps => ⟨attempts, sleeps, .genericError⟩
  | fuel + 1, retries, attempts, sleeps =>
    if method = "GET" ∨ method = "POST" then
      match script retries with
      | .success data => ⟨attempts + 1, sleeps, processResponse endpoint data⟩
      | .failure response =>
        if max_retries ≤ retries then
          match handle_api_error response with
          | .raisedAPIError m s b => ⟨attempts + 1, sleeps, .apiError m s b⟩
          | .raisedPythonError => ⟨attempts + 1, sleeps, .pythonError⟩
          | .returned _ _ =>
            makeRequestLoop method endpoint max_retries script
              fuel (retries + 1) (attempts + 1) (sleeps ++ [2 ^ (retries + 1)])
        else
          makeRequestLoop method endpoint max_retries script
            fuel (retries + 1) (attempts + 1) (sleeps ++ [2 ^ (retries + 1)])
    else
      -- `raise ValueError(...)` for an unsupported HTTP method (line 336):
      -- inside the try block, but ValueError is not a RequestException
      ⟨attempts, sleeps, .pythonError⟩

/-- Model of `DevRevClient._make_request` (client.py lines 310-369), starting from
`retries = 0`. -/
def make_request (method endpoint : String) (max_retries : Nat)
    (script : Nat → AttemptResult) : RunResult :=
  makeRequestLoop method endpoint max_retries script (max_retries + 1) 0 0 []

/-! ## auth.py: token validation -/

/-- How a call of `validate_token` ends: a normal return (Python `None` is
`PyVal.none_`), or an uncaught Python error. -/
inductive AuthOutcome where
  | value (v : PyVal)
  | pythonError

/-- Result of running `validate_token`: attempts made, sleeps performed,
and the final outcome. -/
structure AuthResult where
  attempts : Nat
  sleeps : List Nat
  result : AuthOutcome

/-- The `for attempt in range(max_retries + 1)` loop of
`DevRevAuth.validate_token` (auth.py lines 42-66).  `script i` is the
outcome of the HTTP attempt at loop index `i`; `fuel` is the number of
iterations left (callers maintain `fuel + attempt = max_retries + 1`).
On success the function returns `user_data.get("dev_user")` (an
`AttributeError` on a non-dict body is uncaught); on a `RequestException`
at the last index it returns `None`, otherwise it sleeps `2 ** attempt`
seconds and retries.  If the loop ends, the function implicitly returns
`None`. -/
def validateTokenLoop (max_retries : Nat) (script : Nat → AttemptResult) :
    Nat → Nat → List Nat → AuthResult
  | 0, attempt, sleeps => ⟨attempt, sleeps, .value .none_⟩
  | fuel + 1, attempt, sleeps =>
    match script attempt with
    | .success user_data =>
      match user_data with
      | .dict kvs => ⟨attempt + 1, sleeps, .value (dictGetD kvs "dev_user" .none_)⟩
      | _ => ⟨attempt + 1, sleeps, .pythonError⟩
    | .failure _ =>
      if attempt = max_retries then
        ⟨attempt + 1, sleeps, .value .none_⟩
      else
        validateTokenLoop max_retries script fuel (attempt + 1) (sleeps ++ [2 ^ attempt])

/-- Model of `DevRevAuth.validate_token` (auth.py lines 23-66), starting at loop
index 0. -/
def validate_token (max_retries : Nat) (script : Nat → AttemptResult) : AuthResult :=
  validateTokenLoop max_retries script (max_retries + 1) 0 []

/-! ## client.py: search, create_work, get_object, update_work -/

/-- The list of valid namespaces (client.py lines 68-75). -/
def valid_namespaces : List String :=
  ["account", "article", "capability", "component", "conversation",
   "custom_object", "custom_part", "custom_work", "dashboard", "dev_user",
   "enhancement", "feature", "group", "issue", "linkable", "microservice",
   "object_member", "operation", "opportunity", "part", "product", "project",
   "question_answer", "rev_org", "rev_user", "runnable", "service_account",
   "sys_user", "tag", "task", "ticket", "vista", "workflow", "comment"]

/-- The namespace map (client.py lines 82-117). -/
def namespace_map : List (String × String) :=
  [("account", "account"), ("article", "artifact"), ("capability", "capability"),
   ("component", "component"), ("conversation", "conversation"), ("comment", "comment"),
   ("custom_object", "custom_object"), ("custom_part", "custom_part"),
   ("custom_work", "custom_work"), ("dashboard", "dashboard"), ("dev_user", "dev_user"),
   ("enhancement", "enhancement"), ("feature", "feature"), ("group", "group"),
   ("issue", "issue"), ("linkable", "linkable"), ("microservice", "microservice"),
   ("object_member", "object_member"), ("operation", "operation"),
   ("opportunity", "opportunity"), ("part", "part"), ("product", "product"),
   ("project", "project"), ("question_answer", "question_answer"),
   ("rev_org", "rev_org"), ("rev_user", "rev_user"), ("runnable", "runnable"),
   ("service_account", "service_account"), ("sys_user", "sys_user"), ("tag", "tag"),
   ("task", "task"), ("ticket", "ticket"), ("vista", "vista"), ("workflow", "workflow")]

/-- Python `m.get(key, default)` on a string-to-string dict. -/
def strMapGetD (m : List (String × String)) (key default : String) : String :=
  ((m.find? (fun kv => kv.1 == key)).map (·.2)).getD default

/-- The query parameters `search` passes to the executor
(client.py lines 123-127). -/
structure SearchParams where
  query : String
  namespaces : String
  limit : Nat

/-- Model of `DevRevClient.search` (client.py lines 52-129): an unknown namespace is
replaced by "issue", then the wire namespace is looked up in
`namespace_map` with default "issue"; the request is a GET on
`SEARCH_ENDPOINT` with these parameters. -/
def search (query ns : String) : SearchParams :=
  let ns := if ns ∈ valid_namespaces then ns else "issue"
  { query := query, namespaces := strMapGetD namespace_map ns "issue", limit := 10 }

/-- Python truthiness of an `Optional[str]`: `None` and `""` are falsy. -/
def strTruthy : Option String → Bool
  | none => false
  | some s => s ≠ ""

/-- A POST request as built by `create_work` / `update_work`: the endpoint
and the JSON payload (an association list in insertion order). -/
structure PostRequest where
  endpoint : String
  payload : List (String × PyVal)

/-- Model of `DevRevClient.create_work` (client.py lines 178-220).  `current_user`
is `self._current_user` (`none` is Python `None`).  A returned
`Except.error` is a `ValueError` raised before any request is built, so no
network call is made.  The `owned_by` value is
`[self._current_user.get("id")] if self._current_user else []`, where both
`None` and an empty dict are falsy. -/
def create_work (current_user : Option (List (String × PyVal)))
    (work_type title : String) (applies_to_part body : Option String) :
    Except String PostRequest :=
  if work_type ∉ ["issue", "task"] then
    .error ("Unsupported work type: " ++ work_type ++ ". Must be issue or task")
  else if work_type = "issue" ∧ strTruthy applies_to_part = false then
    .error "applies_to_part is required for issues"
  else
    let owned_by : List PyVal :=
      match current_user with
      | some u => if u.isEmpty then [] else [dictGetD u "id" .none_]
      | none => []
    let payload :=
      [("type", PyVal.str work_type), ("title", PyVal.str title),
       ("owned_by", PyVal.list owned_by)]
      ++ (match applies_to_part with
          | some a => if a ≠ "" then [("applies_to_part", PyVal.str a)] else []
          | none => [])
      ++ (match body with
          | some b => if b ≠ "" then [("body", PyVal.str b)] else []
          | none => [])
    .ok ⟨WORKS_CREATE_ENDPOINT, payload⟩

/-- Python `s.startswith(p)`, modelled on the character sequence. -/
def startswith (s p : String) : Bool :=
  p.data.isPrefixOf s.data

/-- Model of `DevRevClient._determine_object_type` (client.py lines 371-392). -/
def determine_object_type (object_id : String) : String :=
  if startswith object_id "ISS-" then "issue"
  else if startswith object_id "TKT-" then "ticket"
  else if startswith object_id "ART-" then "article"
  else if object_id = "SELF" ∨ startswith object_id "DEVU-" then "user"
  else "unknown"

/-- Model of `DevRevClient.get_object` (client.py lines 282-308).  A returned
`Except.ok` is the path (endpoint with the id appended as the query
string) of the single GET request made; `Except.error` is the
`ValueError` raised before any network call. -/
def get_object (object_id : String) : Except String String :=
  let object_type := determine_object_type object_id
  if object_type = "issue" then .ok (WORKS_ENDPOINT ++ "?id=" ++ object_id)
  else if object_type = "ticket" then .ok (WORKS_ENDPOINT ++ "?id=" ++ object_id)
  else if object_type = "article" then .ok (WORKS_ENDPOINT ++ "?id=" ++ object_id)
  else if object_type = "user" then .ok (DEV_USERS_ENDPOINT ++ "?id=" ++ object_id)
  else .error ("Unsupported object ID format: " ++ object_id)

/-- Model of `DevRevClient.update_work` (client.py lines 394-434): the payload holds
the id and then each of the five optional fields exactly when it was
supplied (an `is not None` test, so the empty string is included); the
request is a POST on `WORKS_UPDATE_ENDPOINT`. -/
def update_work (work_id : String)
    (title applies_to_part body stage status : Option String) : PostRequest :=
  ⟨WORKS_UPDATE_ENDPOINT,
    [("id", PyVal.str work_id)]
    ++ (match title with | some t => [("title", PyVal.str t)] | none => [])
    ++ (match applies_to_part with
        | some a => [("applies_to_part", PyVal.str a)] | none => [])
    ++ (match body with | some b => [("body", PyVal.str b)] | none => [])
    ++ (match stage with | some s => [("stage", PyVal.str s)] | none => [])
    ++ (match status with | some s => [("status", PyVal.str s)] | none => [])⟩

/-! ## Auxiliary definitions used by the statements -/

/-- The `RequestOutcome` produced when `_make_request` hands the final
exception to `handle_api_error` and that call raises.  (The `returned` arm
is never taken for an exception that carries a response; it is mapped to
the generic raise for definiteness.) -/
def raiseOutcome : HandleOutcome → RequestOutcome
  | .raisedAPIError m s b => .apiError m s b
  | .raisedPythonError => .pythonError
  | .returned _ _ => .genericError

/-- Message selection as the specification words it (for the refinement
comparison of the error classifier): the response JSON's `message` field,
else its `error` field, else — when JSON parsing failed — the fixed
status-keyed message, else the generic default. -/
def claimedMessage (r : HTTPResponse) : PyVal :=
  match r.jsonBody with
  | some (.dict kvs) =>
    match dictFind kvs "message" with
    | some m => m
    | none =>
      match dictFind kvs "error" with
      | some m => m
      | none => .str genericErrorMessage
  | none => .str (statusKeyedMessage r.status_code)
  | some _ => .str genericErrorMessage

/-! ## Helper lemmas -/

/-- For an exception that carries an HTTP response, `handle_api_error`
never returns normally: every branch raises. -/
theorem handle_api_error_some_ne_returned (r : HTTPResponse) (m : String) (c : Nat) :
    handle_api_error (some r) ≠ .returned m c := by
  intro h
  unfold handle_api_error at h
  rcases r with ⟨s, t, j⟩
  rcases j with _ | v
  · exact HandleOutcome.noConfusion h
  · simp only at h
    rcases hc : pyContains v "message" with e | b
    · rw [hc] at h; exact HandleOutcome.noConfusion h
    · rw [hc] at h
      rcases b with _ | _
      · rcases hc2 : pyContains v "error" with e | b2
        · rw [hc2] at h; exact HandleOutcome.noConfusion h
        · rw [hc2] at h
          rcases b2 with _ | _
          · exact HandleOutcome.noConfusion h
          · rcases hs : pySubscript v "error" with e | w <;> rw [hs] at h <;>
              exact HandleOutcome.noConfusion h
      · rcases hs : pySubscript v "message" with e | w <;> rw [hs] at h <;>
          exact HandleOutcome.noConfusion h

/-- Every outcome of a raising classifier call is a raise. -/
theorem raiseOutcome_isRaise (h : HandleOutcome) : (raiseOutcome h).isRaise = true := by
  cases h <;> rfl

/-- Bridge between the loop-shaped sleep list and the claim-shaped one. -/
theorem range'_one_map_pow (n : Nat) :
    (List.range' 1 n).map (2 ^ ·) = (List.range n).map (fun i => 2 ^ (i + 1)) := by
  rw [List.range'_eq_map_range, List.map_map]
  congr 1
  funext i
  simp [Nat.add_comm]


/-- Loop invariant of `_make_request` when every attempt fails and the
final exception carries no HTTP response: the remaining `d + 1` iterations
each attempt once, the first `d` sleep `2^(retries+1), ...` seconds, the
classifier call returns, one further sleep of `2^(max_retries+1)` seconds
happens, and the loop exits into the generic raise. -/
theorem makeRequestLoop_fail_none (method endpoint : String)
    (hm : method = "GET" ∨ method = "POST") (mr : Nat)
    (script : Nat → AttemptResult) (hfail : ∀ i, ∃ r, script i = .failure r)
    (hlast : script mr = .failure none) :
    ∀ d retries attempts sleeps, retries + d = mr →
      makeRequestLoop method endpoint mr script (d + 1) retries attempts sleeps
        = ⟨attempts + d + 1,
           sleeps ++ (List.range' (retries + 1) d).map (2 ^ ·) ++ [2 ^ (mr + 1)],
           .genericError⟩ := by
  intro d
  induction d with
  | zero =>
    intro retries attempts sleeps h
    have hr : retries = mr := by omega
    subst hr
    simp only [makeRequestLoop, if_pos hm, hlast, le_refl, if_pos]
    rw [show handle_api_error none
        = .returned "Could not connect to DevRev API. Please check your internet connection." 503
      from rfl]
    simp [makeRequestLoop]
  | succ n ih =>
    intro retries attempts sleeps h
    obtain ⟨r, hr⟩ := hfail retries
    conv_lhs => rw [makeRequestLoop]
    rw [if_pos hm]
    simp only [hr]
    rw [if_neg (show ¬ mr ≤ retries by omega)]
    rw [ih (retries + 1) (attempts + 1) (sleeps ++ [2 ^ (retries + 1)]) (by omega)]
    simp only [RunResult.mk.injEq]
    refine ⟨by omega, ?_, trivial⟩
    simp [List.range'_succ, List.append_assoc]

/-- Loop invariant of `_make_request` when every attempt fails and the
final exception carries an HTTP response: the remaining `d + 1` iterations
each attempt once, the first `d` sleep, and the classifier raises. -/
theorem makeRequestLoop_fail_some (method endpoint : String)
    (hm : method = "GET" ∨ method = "POST") (mr : Nat)
    (script : Nat → AttemptResult) (hfail : ∀ i, ∃ r, script i = .failure r)
    (resp : HTTPResponse) (hlast : script mr = .failure (some resp)) :
    ∀ d retries attempts sleeps, retries + d = mr →
      makeRequestLoop method endpoint mr script (d + 1) retries attempts sleeps
        = ⟨attempts + d + 1,
           sleeps ++ (List.range' (retries + 1) d).map (2 ^ ·),
           raiseOutcome (handle_api_error (some resp))⟩ := by
  intro d
  induction d with
  | zero =>
    intro retries attempts sleeps h
    have hr : retries = mr := by omega
    subst hr
    simp only [makeRequestLoop, if_pos hm, hlast, le_refl, if_pos]
    rcases hh : handle_api_error (some resp) with _ | _ | ⟨m, c⟩
    · simp [raiseOutcome]
    · simp [raiseOutcome]
    · exact absurd hh (handle_api_error_some_ne_returned resp m c)
  | succ n ih =>
    intro retries attempts sleeps h
    obtain ⟨r, hr⟩ := hfail retries
    conv_lhs => rw [makeRequestLoop]
    rw [if_pos hm]
    simp only [hr]
    rw [if_neg (show ¬ mr ≤ retries by omega)]
    rw [ih (retries + 1) (attempts + 1) (sleeps ++ [2 ^ (retries + 1)]) (by omega)]
    simp only [RunResult.mk.injEq]
    refine ⟨by omega, ?_, trivial⟩
    simp [List.range'_succ, List.append_assoc]

/-! ## C1 -/

/-- C1, counterexample.  With `max_retries = 1` and every attempt failing
with a responseless connection error, the executor performs two attempts
but sleeps `[2, 4]`: the second sleep of `2^(max_retries+1) = 4` seconds
falls after the final attempt, so the sleeps are not exactly the sleeps
between consecutive attempts (`[2]`) claimed. -/
theorem retry_sleep_schedule_counterexample :
    (make_request "GET" "/search.core" 1 (fun _ => .failure none)).attempts = 2 ∧
    (make_request "GET" "/search.core" 1 (fun _ => .failure none)).sleeps = [2, 4] ∧
    (make_request "GET" "/search.core" 1 (fun _ => .failure none)).sleeps ≠ [2] := by
  exact ⟨rfl, rfl, by decide⟩

/-- C1, amended.  When every attempt fails with a transport/HTTP
exception, the executor performs exactly `max_retries + 1` attempts and
sleeps `2, 4, ..., 2^max_retries` seconds between consecutive attempts;
if the final exception carries an HTTP response it then raises with no
further sleep, but if the final exception carries no response it performs
one additional sleep of `2^(max_retries+1)` seconds and then raises the
generic exception instead. -/
theorem retry_all_fail_schedule (method endpoint : String)
    (hm : method = "GET" ∨ method = "POST") (mr : Nat)
    (script : Nat → AttemptResult) (hfail : ∀ i, ∃ r, script i = .failure r) :
    (make_request method endpoint mr script).attempts = mr + 1 ∧
    (∀ resp, script mr = .failure (some resp) →
      (make_request method endpoint mr script).sleeps
        = (List.range mr).map (fun i => 2 ^ (i + 1)) ∧
      (make_request method endpoint mr script).outcome.isRaise = true) ∧
    (script mr = .failure none →
      (make_request method endpoint mr script).sleeps
        = (List.range mr).map (fun i => 2 ^ (i + 1)) ++ [2 ^ (mr + 1)] ∧
      (make_request method endpoint mr script).outcome = .genericError) := by
  refine ⟨?_, ?_, ?_⟩
  · obtain ⟨r, hr⟩ := hfail mr
    cases r with
    | none =>
      rw [make_request,
        makeRequestLoop_fail_none method endpoint hm mr script hfail hr mr 0 0 [] (by omega)]
      simp
    | some resp =>
      rw [make_request,
        makeRequestLoop_fail_some method endpoint hm mr script hfail resp hr mr 0 0 [] (by omega)]
      simp
  · intro resp hlast
    rw [make_request,
      makeRequestLoop_fail_some method endpoint hm mr script hfail resp hlast mr 0 0 [] (by omega)]
    exact ⟨by simp [range'_one_map_pow], raiseOutcome_isRaise _⟩
  · intro hlast
    rw [make_request,
      makeRequestLoop_fail_none method endpoint hm mr script hfail hlast mr 0 0 [] (by omega)]
    exact ⟨by simp [range'_one_map_pow], rfl⟩

/-- C1, witness for the amended theorem at `max_retries = 1` with all
attempts failing without a response. -/
theorem retry_all_fail_schedule_witness :
    (make_request "GET" "/works.list" 1 (fun _ => .failure none)).attempts = 2 ∧
    (make_request "GET" "/works.list" 1 (fun _ => .failure none)).sleeps = [2, 4] ∧
    (make_request "GET" "/works.list" 1 (fun _ => .failure none)).outcome = .genericError := by
  have h := retry_all_fail_schedule "GET" "/works.list" (Or.inl rfl) 1
    (fun _ => .failure none) (fun i => ⟨none, rfl⟩)
  have h2 := h.2.2 rfl
  exact ⟨h.1, h2.1, h2.2⟩

/-! ## C2 -/

/-- C2: evaluation at the failing input.  For an exception that carries no
HTTP response (a pure network failure), `handle_api_error` does not raise:
it returns a `(message, 503)` tuple.  The executor therefore falls past
the classifier call: with `max_retries = 0` it sleeps once more
(`2^1 = 2` seconds) and ends in the generic
`Exception("Maximum retries exceeded")` raise rather than a structured
`DevRevAPIError`. -/
theorem classifier_network_error_returns :
    handle_api_error none
      = .returned "Could not connect to DevRev API. Please check your internet connection." 503 ∧
    (make_request "GET" "/works.get" 0 (fun _ => .failure none)).outcome
      = .genericError ∧
    (make_request "GET" "/works.get" 0 (fun _ => .failure none)).sleeps = [2] := by
  exact ⟨rfl, rfl, rfl⟩

/-! ## C3 -/

/-- C3, counterexample.  For an exception whose response has status 400
and whose body parses to the JSON array `["message"]`, Python evaluates
`"message" in error_data` to `True` (list membership) and then crashes on
`error_data["message"]` with an uncaught `TypeError`: the classifier
raises no structured error at all, contradicting the claim that every
response-carrying exception yields a structured error. -/
theorem classifier_nondict_body_counterexample :
    handle_api_error
        (some ⟨400, "[\x22message\x22]", some (.list [.str "message"])⟩)
      = .raisedPythonError ∧
    handle_api_error
        (some ⟨400, "[\x22message\x22]", some (.list [.str "message"])⟩)
      ≠ .raisedAPIError (.str genericErrorMessage) 400 "[\x22message\x22]" := by
  refine ⟨rfl, ?_⟩
  intro h
  exact HandleOutcome.noConfusion h

/-- C3, amended.  For every exception carrying an HTTP response whose body
either fails to parse as JSON or parses to a JSON object, the classifier
raises a structured error whose status code is the response status, whose
raw body is the response text, and whose message follows the claimed
selection: the JSON `message` field, else the `error` field, else (on
parse failure) the fixed message for 401/403/404/429, else the generic
default.  (A body parsing to a non-object JSON value is excluded: see the
counterexample.) -/
theorem classifier_response_structured (r : HTTPResponse)
    (h : r.jsonBody = none ∨ ∃ kvs, r.jsonBody = some (.dict kvs)) :
    handle_api_error (some r) = .raisedAPIError (claimedMessage r) r.status_code r.text := by
  rcases r with ⟨s, t, j⟩
  rcases h with h | ⟨kvs, h⟩ <;> simp only at h <;> subst h
  · rfl
  · simp only [handle_api_error, claimedMessage, pyContains, pySubscript]
    rcases hm : kvs.find? (fun kv => kv.1 == "message") with _ | p
    · simp only [hm, Option.isSome_none, dictFind, Option.map_none]
      rcases he : kvs.find? (fun kv => kv.1 == "error") with _ | q
      · simp [he, dictFind]
      · simp [he, dictFind]
    · simp [hm, dictFind]

/-- C3, witness for the amended theorem: a 401 response with an
unparseable body yields the fixed authentication-failure message, and a
response whose object body has a `message` field yields that field. -/
theorem classifier_response_structured_witness :
    handle_api_error (some ⟨401, "nope", none⟩)
      = .raisedAPIError (.str "Authentication failed. Please check your API key.") 401 "nope" ∧
    handle_api_error (some ⟨418, "x", some (.dict [("message", .str "teapot")])⟩)
      = .raisedAPIError (.str "teapot") 418 "x" := by
  exact ⟨classifier_response_structured ⟨401, "nope", none⟩ (Or.inl rfl),
    classifier_response_structured ⟨418, "x", some (.dict [("message", .str "teapot")])⟩
      (Or.inr ⟨[("message", .str "teapot")], rfl⟩)⟩

/-! ## C4 -/

/-- Loop invariant of `validate_token` when every attempt fails: the
remaining `d + 1` iterations each attempt once, the first `d` sleep
`2^attempt` seconds, and the last returns `None`. -/
theorem validateTokenLoop_all_fail (mr : Nat) (script : Nat → AttemptResult)
    (hfail : ∀ i, ∃ r, script i = .failure r) :
    ∀ d attempt sleeps, attempt + d = mr →
      validateTokenLoop mr script (d + 1) attempt sleeps
        = ⟨mr + 1, sleeps ++ (List.range' attempt d).map (2 ^ ·), .value PyVal.none_⟩ := by
  intro d
  induction d with
  | zero =>
    intro attempt sleeps h
    have ha : attempt = mr := by omega
    obtain ⟨r, hr⟩ := hfail attempt
    conv_lhs => rw [validateTokenLoop]
    simp only [hr]
    rw [if_pos ha]
    simp [ha]
  | succ n ih =>
    intro attempt sleeps h
    obtain ⟨r, hr⟩ := hfail attempt
    conv_lhs => rw [validateTokenLoop]
    simp only [hr]
    rw [if_neg (show ¬ attempt = mr by omega)]
    rw [ih (attempt + 1) (sleeps ++ [2 ^ attempt]) (by omega)]
    simp [List.range'_succ, List.append_assoc]

/-- C4: when every attempt of the auth validator fails with a
transport-level error, it performs `max_retries + 1` attempts, sleeping
`2^attempt` seconds before each retry with `attempt` counted from `0`
(that is, `1, 2, 4, ...` seconds), and after exhaustion returns `None`
(Python null) rather than raising. -/
theorem auth_retry_exhaustion (mr : Nat) (script : Nat → AttemptResult)
    (hfail : ∀ i, ∃ r, script i = .failure r) :
    validate_token mr script
      = ⟨mr + 1, (List.range mr).map (2 ^ ·), .value PyVal.none_⟩ := by
  rw [validate_token, validateTokenLoop_all_fail mr script hfail mr 0 [] (by omega)]
  simp [List.range_eq_range']

/-- C4, witness at `max_retries = 2` with every attempt failing: three
attempts, sleeps `[1, 2]`, and a `None` return. -/
theorem auth_retry_exhaustion_witness :
    validate_token 2 (fun _ => .failure none)
      = ⟨3, [1, 2], .value PyVal.none_⟩ := by
  have h := auth_retry_exhaustion 2 (fun _ => .failure none) (fun i => ⟨none, rfl⟩)
  simpa using h

/-! ## C5 -/

/-- C5, counterexample.  A successful identity-self response whose body
(an object) lacks the `dev_user` key makes `validate_token` return
`user_data.get("dev_user")`, which is Python `None` — exactly the same
null outcome as exhausted retries, contradicting the claim that the
missing-key outcome differs from the exhausted-retries outcome. -/
theorem auth_missing_key_counterexample :
    (validate_token 0 (fun _ => .success (.dict [("foo", .str "bar")]))).result
      = .value PyVal.none_ ∧
    (validate_token 0 (fun _ => .success (.dict [("foo", .str "bar")]))).result
      = (validate_token 0 (fun _ => .failure none)).result := by
  exact ⟨rfl, rfl⟩

/-- C5, amended.  On a successful first response from the identity-self
endpoint with an object body, the auth validator returns the value stored
under the nested `dev_user` key; when that key is absent the caller
receives Python `None` — not a hard failure, but indistinguishable from
the null outcome of exhausted retries. -/
theorem auth_success_nested_key (mr : Nat) (script : Nat → AttemptResult)
    (kvs : List (String × PyVal)) (h0 : script 0 = .success (.dict kvs)) :
    (validate_token mr script).result = .value (dictGetD kvs "dev_user" PyVal.none_) ∧
    (dictFind kvs "dev_user" = none →
      (validate_token mr script).result = .value PyVal.none_) := by
  constructor
  · rw [validate_token]
    conv_lhs => rw [validateTokenLoop]
    simp [h0]
  · intro hmiss
    rw [validate_token]
    conv_lhs => rw [validateTokenLoop]
    simp [h0, dictGetD, hmiss]

/-- C5, witness for the amended theorem: the nested record is returned
when present. -/
theorem auth_success_nested_key_witness :
    (validate_token 3 (fun _ =>
        .success (.dict [("dev_user", .dict [("id", .str "DEVU-1")])]))).result
      = .value (.dict [("id", .str "DEVU-1")]) := by
  exact (auth_success_nested_key 3 _ [("dev_user", .dict [("id", .str "DEVU-1")])] rfl).1

/-! ## C6 -/

/-- On every valid namespace, the wire lookup in `namespace_map` is the
identity except `article`, which maps to `artifact`. -/
theorem namespace_map_on_valid :
    ∀ ns ∈ valid_namespaces,
      strMapGetD namespace_map ns "issue" = if ns = "article" then "artifact" else ns := by
  decide

/-- C6: for every query and namespace, `search` builds its request with
the result limit fixed at 10, the query passed through, and the wire
namespace equal to the mapped name of the given namespace (`article` maps
to `artifact`, every other known tag maps to itself); every namespace not
among the 34 known tags is silently replaced by `issue` (the model is a
total function, so no exception is raised). -/
theorem search_namespace_mapping (q ns : String) :
    (search q ns).limit = 10 ∧
    (search q ns).query = q ∧
    (search q ns).namespaces
      = (if ns ∈ valid_namespaces then (if ns = "article" then "artifact" else ns)
         else "issue") := by
  refine ⟨rfl, rfl, ?_⟩
  by_cases h : ns ∈ valid_namespaces
  · rw [if_pos h]
    simp only [search, if_pos h]
    exact namespace_map_on_valid ns h
  · rw [if_neg h]
    simp only [search, if_neg h]
    rfl

/-! ## C7 -/

/-- C7: `create_work` rejects with a `ValueError` — before any request is
built, hence before any network call — whenever the work type is neither
`issue` nor `task` (in particular `ticket` is always rejected), and
whenever the work type is `issue` and the part reference is absent
(`None`) or empty; otherwise the payload's `owned_by` is the
single-element list holding the cached identity's id (`current_user` a
non-empty dict). -/
theorem create_work_validation (u : List (String × PyVal)) (hu : u.isEmpty = false)
    (work_type title : String) (atp body : Option String) :
    ((work_type ≠ "issue" ∧ work_type ≠ "task") →
      ∃ e, create_work (some u) work_type title atp body = .error e) ∧
    (∃ e, create_work (some u) "ticket" title atp body = .error e) ∧
    ((work_type = "issue" ∧ strTruthy atp = false) →
      ∃ e, create_work (some u) work_type title atp body = .error e) ∧
    (∀ req, create_work (some u) work_type title atp body = .ok req →
      dictFind req.payload "owned_by" = some (.list [dictGetD u "id" PyVal.none_])) := by
  refine ⟨?_, ?_, ?_, ?_⟩
  · intro ⟨h1, h2⟩
    refine ⟨"Unsupported work type: " ++ work_type ++ ". Must be issue or task", ?_⟩
    simp only [create_work]
    rw [if_pos (by simp [h1, h2])]
  · refine ⟨"Unsupported work type: " ++ "ticket" ++ ". Must be issue or task", ?_⟩
    simp only [create_work]
    rw [if_pos (by simp)]
  · intro ⟨h1, h2⟩
    subst h1
    refine ⟨"applies_to_part is required for issues", ?_⟩
    simp only [create_work]
    rw [if_neg (by simp), if_pos (by simp [h2])]
  · intro req hok
    simp only [create_work] at hok
    by_cases hv : work_type ∉ ["issue", "task"]
    · rw [if_pos hv] at hok
      exact absurd hok (by simp)
    · rw [if_neg hv] at hok
      by_cases hp : work_type = "issue" ∧ strTruthy atp = false
      · rw [if_pos hp] at hok
        exact absurd hok (by simp)
      · rw [if_neg hp] at hok
        injection hok with hreq
        subst hreq
        simp only [hu, Bool.false_eq_true, if_neg]
        rcases atp with _ | a <;> rcases body with _ | b <;> simp [dictFind]

/-- C7, witness: with a cached identity, `ticket` is rejected and `issue`
without a part reference is rejected. -/
theorem create_work_validation_witness :
    (∃ e, create_work (some [("id", PyVal.str "DEVU-1")]) "ticket" "t" none none = .error e) ∧
    (∃ e, create_work (some [("id", PyVal.str "DEVU-1")]) "issue" "t" none none = .error e) := by
  have h := create_work_validation [("id", PyVal.str "DEVU-1")] rfl "issue" "t" none none
  exact ⟨h.2.1, h.2.2.1 ⟨rfl, rfl⟩⟩

/-! ## C8 -/

/-- An id starting with `DEVU-` starts with none of the work prefixes. -/
theorem startswith_devu_excl (id : String) (h : startswith id "DEVU-" = true) :
    startswith id "ISS-" = false ∧ startswith id "TKT-" = false ∧
    startswith id "ART-" = false := by
  unfold startswith at h
  rw [List.isPrefixOf_iff_prefix] at h
  obtain ⟨t, ht⟩ := h
  have hid : id.data = 'D' :: 'E' :: 'V' :: 'U' :: '-' :: t := ht.symm
  refine ⟨?_, ?_, ?_⟩ <;> (unfold startswith; rw [hid]; rfl)

/-- C8: `get_object` routes by the literal id prefix alone — `ISS-`,
`TKT-` and `ART-` ids go to the works endpoint, ids equal to `SELF` or
starting with `DEVU-` go to the dev-users endpoint, and every other id is
rejected with an unsupported-format `ValueError` before any network call
(the `Except.ok` value is the path of the single request made). -/
theorem get_object_routing (id : String) :
    ((startswith id "ISS-" = true ∨ startswith id "TKT-" = true ∨
      startswith id "ART-" = true) →
      get_object id = .ok (WORKS_ENDPOINT ++ "?id=" ++ id)) ∧
    ((id = "SELF" ∨ startswith id "DEVU-" = true) →
      get_object id = .ok (DEV_USERS_ENDPOINT ++ "?id=" ++ id)) ∧
    ((startswith id "ISS-" = false) → (startswith id "TKT-" = false) →
      (startswith id "ART-" = false) → id ≠ "SELF" →
      (startswith id "DEVU-" = false) →
      get_object id = .error ("Unsupported object ID format: " ++ id)) := by
  refine ⟨?_, ?_, ?_⟩
  · intro h
    rcases h with h | h | h
    · simp [get_object, determine_object_type, h]
    · by_cases h1 : startswith id "ISS-" = true <;>
        simp [get_object, determine_object_type, h, h1]
    · by_cases h1 : startswith id "ISS-" = true <;>
        by_cases h2 : startswith id "TKT-" = true <;>
        simp [get_object, determine_object_type, h, h1, h2]
  · intro h
    rcases h with rfl | h
    · rfl
    · obtain ⟨h1, h2, h3⟩ := startswith_devu_excl id h
      simp [get_object, determine_object_type, h, h1, h2, h3]
  · intro h1 h2 h3 h4 h5
    simp [get_object, determine_object_type, h1, h2, h3, h4, h5]

/-- C8, witness: a works id, a dev-user id, and a rejected id. -/
theorem get_object_routing_witness :
    get_object "ISS-42" = .ok "/works.get?id=ISS-42" ∧
    get_object "TKT-42" = .ok "/works.get?id=TKT-42" ∧
    get_object "DEVU-7" = .ok "/dev-users.get?id=DEVU-7" ∧
    get_object "XYZ-1" = .error "Unsupported object ID format: XYZ-1" := by
  refine ⟨?_, ?_, ?_, ?_⟩
  · exact (get_object_routing "ISS-42").1 (Or.inl (by decide))
  · exact (get_object_routing "TKT-42").1 (Or.inr (Or.inl (by decide)))
  · exact (get_object_routing "DEVU-7").2.1 (Or.inr (by decide))
  · exact (get_object_routing "XYZ-1").2.2 (by decide) (by decide) (by decide)
      (by decide) (by decide)

/-! ## C9 -/

/-- C9: the `update_work` payload contains the target id and exactly the
supplied (non-`None`) fields among title, applies_to_part, body, stage and
status, with the supplied values, and nothing else; in particular a call
with only `status` supplied sends a payload containing only `id` and
`status`. -/
theorem update_work_payload (wid : String) (t atp b stg st : Option String) :
    (∀ k v, (k, v) ∈ (update_work wid t atp b stg st).payload ↔
      ((k = "id" ∧ v = .str wid) ∨
       (∃ x, t = some x ∧ k = "title" ∧ v = .str x) ∨
       (∃ x, atp = some x ∧ k = "applies_to_part" ∧ v = .str x) ∨
       (∃ x, b = some x ∧ k = "body" ∧ v = .str x) ∨
       (∃ x, stg = some x ∧ k = "stage" ∧ v = .str x) ∨
       (∃ x, st = some x ∧ k = "status" ∧ v = .str x))) ∧
    (∀ s, (update_work wid none none none none (some s)).payload
      = [("id", .str wid), ("status", .str s)]) := by
  constructor
  · intro k v
    rcases t with _ | x1 <;> rcases atp with _ | x2 <;> rcases b with _ | x3 <;>
      rcases stg with _ | x4 <;> rcases st with _ | x5 <;>
      simp [update_work]
  · intro s
    simp [update_work]

/-! ## C10 -/

/-- C10: for every successful response on an endpoint with a known
envelope key whose parsed object body lacks that key, the executor
returns the empty default — an empty list for search, works.list and
parts.list, an empty dict for works.create, works.update and parts.get —
rather than failing or returning Python `None`. -/
theorem executor_envelope_default (mr : Nat) (kvs : List (String × PyVal)) :
    (dictFind kvs "results" = none →
      (make_request "GET" SEARCH_ENDPOINT mr (fun _ => .success (.dict kvs))).outcome
        = .ok (.list [])) ∧
    (dictFind kvs "works" = none →
      (make_request "GET" WORKS_LIST_ENDPOINT mr (fun _ => .success (.dict kvs))).outcome
        = .ok (.list [])) ∧
    (dictFind kvs "work" = none →
      (make_request "POST" WORKS_CREATE_ENDPOINT mr (fun _ => .success (.dict kvs))).outcome
        = .ok (.dict [])) ∧
    (dictFind kvs "work" = none →
      (make_request "POST" WORKS_UPDATE_ENDPOINT mr (fun _ => .success (.dict kvs))).outcome
        = .ok (.dict [])) ∧
    (dictFind kvs "part" = none →
      (make_request "GET" PARTS_ENDPOINT mr (fun _ => .success (.dict kvs))).outcome
        = .ok (.dict [])) ∧
    (dictFind kvs "parts" = none →
      (make_request "GET" PARTS_LIST_ENDPOINT mr (fun _ => .success (.dict kvs))).outcome
        = .ok (.list [])) := by
  refine ⟨?_, ?_, ?_, ?_, ?_, ?_⟩ <;> intro h
  · show processResponse SEARCH_ENDPOINT (.dict kvs) = .ok (.list [])
    simp [processResponse, SEARCH_ENDPOINT, WORKS_LIST_ENDPOINT, WORKS_CREATE_ENDPOINT,
      WORKS_UPDATE_ENDPOINT, PARTS_ENDPOINT, PARTS_LIST_ENDPOINT, dictGetD, h]
  · show processResponse WORKS_LIST_ENDPOINT (.dict kvs) = .ok (.list [])
    simp [processResponse, SEARCH_ENDPOINT, WORKS_LIST_ENDPOINT, WORKS_CREATE_ENDPOINT,
      WORKS_UPDATE_ENDPOINT, PARTS_ENDPOINT, PARTS_LIST_ENDPOINT, dictGetD, h]
  · show processResponse WORKS_CREATE_ENDPOINT (.dict kvs) = .ok (.dict [])
    simp [processResponse, SEARCH_ENDPOINT, WORKS_LIST_ENDPOINT, WORKS_CREATE_ENDPOINT,
      WORKS_UPDATE_ENDPOINT, PARTS_ENDPOINT, PARTS_LIST_ENDPOINT, dictGetD, h]
  · show processResponse WORKS_UPDATE_ENDPOINT (.dict kvs) = .ok (.dict [])
    simp [processResponse, SEARCH_ENDPOINT, WORKS_LIST_ENDPOINT, WORKS_CREATE_ENDPOINT,
      WORKS_UPDATE_ENDPOINT, PARTS_ENDPOINT, PARTS_LIST_ENDPOINT, dictGetD, h]
  · show processResponse PARTS_ENDPOINT (.dict kvs) = .ok (.dict [])
    simp [processResponse, SEARCH_ENDPOINT, WORKS_LIST_ENDPOINT, WORKS_CREATE_ENDPOINT,
      WORKS_UPDATE_ENDPOINT, PARTS_ENDPOINT, PARTS_LIST_ENDPOINT, dictGetD, h]
  · show processResponse PARTS_LIST_ENDPOINT (.dict kvs) = .ok (.list [])
    simp [processResponse, SEARCH_ENDPOINT, WORKS_LIST_ENDPOINT, WORKS_CREATE_ENDPOINT,
      WORKS_UPDATE_ENDPOINT, PARTS_ENDPOINT, PARTS_LIST_ENDPOINT, dictGetD, h]

/-- C10, witness at the empty body `{}` for the search endpoint. -/
theorem executor_envelope_default_witness :
    (make_request "GET" SEARCH_ENDPOINT 3 (fun _ => .success (.dict []))).outcome
      = .ok (.list []) := by
  exact (executor_envelope_default 3 []).1 rfl
